import Mathlib

/-!
Verification development for the megatools sync tool and its tool library.

The definitions below are a shallow embedding of the C sources:
  * `src/unnamed/part_000` — the sync tool (`up_sync_file`, `up_sync_dir`,
    `dl_sync_file`, `dl_sync_dir`, `sync_main`); this is the variant of the
    sync tool that has the `--always`, `--ignore-errors`, `--delete-only`
    options and the `files_processed` / `files_with_errors` counters.
  * `src/lib/tools.c` — `tool_show_progress`, `tool_init`,
    `tool_start_session`.

External calls (g_stat, mega_session_stat, mega_session_rm,
mega_session_put_compat, mega_session_get_compat, g_file_delete, utime,
setxattr, directory enumeration, …) are modelled by environment records of
oracle functions giving each call's answer, and every state-changing call the
tool makes is recorded in an `actions` trace together with the success flag
the oracle returned for it.  Informational prints ("R path", "F path",
"D path", warning) are recorded in a `msgs` trace.  The global counters
(`files_processed`, `folders_processed`, `files_with_errors`,
`elements_deleted`, `bytes_transferred`) become fields of the result.
-/

namespace Megatools

/-- Command line options of the sync tool (`src/unnamed/part_000`,
lines 30-60): `--always`, `--force`, `--dryrun`, `--delete`,
`--delete-only`, `--ignore-errors`. -/
structure SyncOpts where
  opt_always : Bool
  opt_force : Bool
  opt_dryrun : Bool
  opt_delete : Bool
  opt_delete_only : Bool
  opt_ignore_errors : Bool
deriving DecidableEq, Repr

/-- Remote node kinds as tested by the sync tool
(`MEGA_NODE_FILE` / `MEGA_NODE_FOLDER` / other root kinds). -/
inductive NType where
  | file
  | folder
  | other
deriving DecidableEq, Repr

/-- Fields of `struct mega_node` that the sync tool reads:
kind, `size`, `timestamp` (upload timestamp) and `local_ts`
(local-origin timestamp override, 0 when absent). -/
structure MegaNode where
  ntype : NType
  size : Int
  timestamp : Int
  local_ts : Int
deriving DecidableEq, Repr

/-- Result of a successful `g_stat`: `st_size` and `st_mtime`. -/
structure StatBuf where
  st_size : Int
  st_mtime : Int
deriving DecidableEq, Repr

/-- Local file types as returned by `g_file_query_file_type`
(`G_FILE_TYPE_UNKNOWN` / `_REGULAR` / `_DIRECTORY` / anything else). -/
inductive FType where
  | unknown
  | regular
  | directory
  | special
deriving DecidableEq, Repr

/-- One state-changing external call made by the sync tool, with the success
flag returned by the environment for that call.  `rmRemote` is
`mega_session_rm`, `mkdirRemote` is `mega_session_mkdir`, `putRemote` is
`mega_session_put_compat`, `rmLocal p recursive ok` is `g_file_delete`
(or `delete_recursively` when `recursive`), `mkdirLocal` is
`g_file_make_directory`, `getFile` is `mega_session_get_compat`,
`setTimes p ts ok` is `utime` with `actime = modtime = ts`, and
`setXattrs` is the `setxattr` loop over the node's extended attributes. -/
inductive Action where
  | rmRemote (path : String) (ok : Bool)
  | mkdirRemote (path : String) (ok : Bool)
  | putRemote (path : String) (ok : Bool)
  | rmLocal (path : String) (recursive : Bool) (ok : Bool)
  | mkdirLocal (path : String) (ok : Bool)
  | getFile (path : String) (ok : Bool)
  | setTimes (path : String) (ts : Int) (ok : Bool)
  | setXattrs (path : String) (ok : Bool)
deriving DecidableEq, Repr

/-- Informational messages printed by the sync tool: `R path` (remove),
`F path` (file transfer), `D path` (directory creation), and the
"Skipping special file" warning. -/
inductive Msg where
  | R (path : String)
  | F (path : String)
  | D (path : String)
  | W (path : String)
deriving DecidableEq, Repr

/-- Observable outcome of running (part of) the sync tool: the boolean the
function returns (`status`), the trace of state-changing calls, the trace of
informational messages, and the increments of the five global counters. -/
structure Outcome where
  status : Bool
  actions : List Action
  msgs : List Msg
  filesProcessed : Nat
  foldersProcessed : Nat
  filesWithErrors : Nat
  elementsDeleted : Nat
  bytesTransferred : Int
deriving DecidableEq, Repr

/-- Outcome of code that did nothing and succeeded. -/
def Outcome.empty : Outcome :=
  { status := true, actions := [], msgs := [], filesProcessed := 0,
    foldersProcessed := 0, filesWithErrors := 0, elementsDeleted := 0,
    bytesTransferred := 0 }

/-- Outcome of code that did nothing and returned `FALSE`. -/
def Outcome.fail : Outcome :=
  { Outcome.empty with status := false }

/-- Sequential composition of two outcomes: traces concatenate, counters
add, and the second stage decides the returned status. -/
def Outcome.seq (a b : Outcome) : Outcome :=
  { status := b.status,
    actions := a.actions ++ b.actions,
    msgs := a.msgs ++ b.msgs,
    filesProcessed := a.filesProcessed + b.filesProcessed,
    foldersProcessed := a.foldersProcessed + b.foldersProcessed,
    filesWithErrors := a.filesWithErrors + b.filesWithErrors,
    elementsDeleted := a.elementsDeleted + b.elementsDeleted,
    bytesTransferred := a.bytesTransferred + b.bytesTransferred }

/-- Name and full remote path of a remote child node, as produced by
`mega_session_ls` and `mega_node_get_path_dup` in the `--delete` handling of
`up_sync_dir`. -/
structure RChild where
  name : String
  path : String
deriving DecidableEq, Repr

/-- Environment of the upload direction: answers of the external calls, keyed
by the path each call is made with.  `lstat` answers `g_stat` on a local
path (`none` = failure), `stat` answers `mega_session_stat` on a remote
path, `rmOk` / `mkdirOk` / `putOk` give the success of `mega_session_rm` /
`mega_session_mkdir` / `mega_session_put_compat`, `enumOk` gives the success
of enumerating a local directory, and `ls` answers `mega_session_ls` on a
remote path. -/
structure UpEnv where
  lstat : String → Option StatBuf
  stat : String → Option MegaNode
  rmOk : String → Bool
  mkdirOk : String → Bool
  putOk : String → Bool
  enumOk : String → Bool
  ls : String → List RChild

/-- Timestamp the sync tool compares against and applies: the node's
local-origin timestamp when positive, otherwise its upload timestamp
(`glong timestamp = node->local_ts > 0 ? node->local_ts : node->timestamp`,
`src/unnamed/part_000` lines 103 and 344). -/
def node_sync_ts (n : MegaNode) : Int :=
  if n.local_ts > 0 then n.local_ts else n.timestamp

/-- Final part of `up_sync_file` (`src/unnamed/part_000` lines 140-162):
print `F local_path`, and unless `--dryrun` call
`mega_session_put_compat`; on failure count a file error and return
`FALSE`, on success add the file size to `bytes_transferred`. -/
def up_put_part (o : SyncOpts) (env : UpEnv) (lpath rpath : String)
    (sz : Int) : Outcome :=
  if o.opt_dryrun then { Outcome.empty with msgs := [Msg.F lpath] }
  else if env.putOk rpath then
    { Outcome.empty with
      msgs := [Msg.F lpath],
      actions := [Action.putRemote rpath true], bytesTransferred := sz }
  else
    { Outcome.empty with
      status := false, msgs := [Msg.F lpath],
      actions := [Action.putRemote rpath false], filesWithErrors := 1 }

/-- Embedding of `up_sync_file` (`src/unnamed/part_000` lines 72-163):
stat the local file (failure counts an error), skip empty files, look up the
remote node; an existing folder node without `--force` is a counted error;
an existing node identical in size and timestamp is skipped unless
`--always`; a differing node is removed (`R` message, `mega_session_rm`
unless `--dryrun`) and then the file is uploaded via `up_put_part`. -/
def up_sync_file (o : SyncOpts) (env : UpEnv) (lpath rpath : String) :
    Outcome :=
  let base := { Outcome.empty with filesProcessed := 1 }
  match env.lstat lpath with
  | none => { base with status := false, filesWithErrors := 1 }
  | some st =>
    if st.st_size ≤ 0 then base
    else
      match env.stat rpath with
      | some n =>
        if o.opt_force = false ∧ n.ntype = NType.folder then
          { base with status := false, filesWithErrors := 1 }
        else
          if o.opt_always = true ∨ n.size ≠ st.st_size ∨
              st.st_mtime ≠ node_sync_ts n then
            let rep : Outcome :=
              if o.opt_dryrun then { Outcome.empty with msgs := [Msg.R rpath] }
              else if env.rmOk rpath then
                { Outcome.empty with
                  msgs := [Msg.R rpath],
                  actions := [Action.rmRemote rpath true] }
              else
                { Outcome.empty with
                  status := false, msgs := [Msg.R rpath],
                  actions := [Action.rmRemote rpath false],
                  filesWithErrors := 1 }
            if rep.status then
              base.seq (rep.seq (up_put_part o env lpath rpath st.st_size))
            else base.seq rep
          else base
      | none => base.seq (up_put_part o env lpath rpath st.st_size)

/-- Shape of one entry of the local directory tree, as seen through the
`g_file_enumerate_children` / `g_file_query_file_type` calls of
`up_sync_dir`: a regular file, a subdirectory with its own entries, or a
special file. -/
inductive LEntry where
  | file (name : String)
  | dir (name : String) (entries : List LEntry)
  | special (name : String)

/-- Name of a local tree entry. -/
def LEntry.name : LEntry → String
  | .file n => n
  | .dir n _ => n
  | .special n => n

/-- Prologue of `up_sync_dir` for a non-root directory
(`src/unnamed/part_000` lines 177-204): if the remote node at the target
path is a file, announce `R` and remove it (unless `--dryrun`); if there is
no remote node, announce `D` with the local path and create the remote
directory (unless `--dryrun`).  Failures return `FALSE` without touching
`files_with_errors`. -/
def up_dir_prologue (o : SyncOpts) (env : UpEnv) (isRoot : Bool)
    (lpath rpath : String) : Outcome :=
  if o.opt_delete_only = false ∧ isRoot = false then
    match env.stat rpath with
    | some n =>
      if n.ntype = NType.file then
        if o.opt_dryrun then { Outcome.empty with msgs := [Msg.R rpath] }
        else if env.rmOk rpath then
          { Outcome.empty with
            msgs := [Msg.R rpath], actions := [Action.rmRemote rpath true] }
        else
          { Outcome.empty with
            status := false, msgs := [Msg.R rpath],
            actions := [Action.rmRemote rpath false] }
      else Outcome.empty
    | none =>
      if o.opt_dryrun then { Outcome.empty with msgs := [Msg.D lpath] }
      else if env.mkdirOk rpath then
        { Outcome.empty with
          msgs := [Msg.D lpath], actions := [Action.mkdirRemote rpath true] }
      else
        { Outcome.empty with
          status := false, msgs := [Msg.D lpath],
          actions := [Action.mkdirRemote rpath false] }
  else Outcome.empty

/-- Loop of `up_sync_dir` over the remote leftovers under `--delete`
(`src/unnamed/part_000` lines 258-286): each leftover node is announced with
`R` and removed unless `--dryrun`; a removal failure sets the status to
`opt_ignore_errors` and the loop breaks when the status became `FALSE`. -/
def up_delete_loop (o : SyncOpts) (env : UpEnv) : List RChild → Outcome
  | [] => Outcome.empty
  | rc :: rest =>
    let head : Outcome :=
      if o.opt_dryrun then { Outcome.empty with msgs := [Msg.R rc.path] }
      else if env.rmOk rc.path then
        { Outcome.empty with
          msgs := [Msg.R rc.path], actions := [Action.rmRemote rc.path true],
          elementsDeleted := 1 }
      else
        { Outcome.empty with
          status := o.opt_ignore_errors, msgs := [Msg.R rc.path],
          actions := [Action.rmRemote rc.path false] }
    if head.status then head.seq (up_delete_loop o env rest) else head

mutual

/-- Dispatch on one local tree entry, as done by the child loop of
`up_sync_dir` (`src/unnamed/part_000` lines 229-256): a subdirectory
recurses into `up_sync_dir` (modelled by the `.dir` branch below, which is
the body of `up_sync_dir`, lines 165-295), a regular file goes through
`up_sync_file` unless `--delete-only`, and a special file only produces a
warning.  `lpath` / `rpath` are the entry's own local and remote paths. -/
def up_sync_entry (o : SyncOpts) (env : UpEnv) (isRoot : Bool)
    (lpath rpath : String) : LEntry → Outcome
  | .file _ =>
    if o.opt_delete_only then Outcome.empty
    else up_sync_file o env lpath rpath
  | .special _ => { Outcome.empty with msgs := [Msg.W lpath] }
  | .dir _ entries =>
    let base := { Outcome.empty with foldersProcessed := 1 }
    let pro := up_dir_prologue o env isRoot lpath rpath
    if pro.status = false then base.seq pro
    else if env.enumOk lpath = false then (base.seq pro).seq Outcome.fail
    else
      let kids := up_sync_children o env lpath rpath entries
      let pre := (base.seq pro).seq kids
      if o.opt_delete ∧ kids.status = true then
        pre.seq (up_delete_loop o env ((env.ls rpath).filter
          (fun rc => !(entries.map LEntry.name).contains rc.name)))
      else pre

/-- Child loop of `up_sync_dir` (`src/unnamed/part_000` lines 228-256):
process the entries in order; when one fails the loop status becomes
`opt_ignore_errors` and the loop breaks if that made it `FALSE`. -/
def up_sync_children (o : SyncOpts) (env : UpEnv) (lpath rpath : String) :
    List LEntry → Outcome
  | [] => Outcome.empty
  | e :: rest =>
    let c := up_sync_entry o env false (lpath ++ "/" ++ e.name)
      (rpath ++ "/" ++ e.name) e
    if c.status || o.opt_ignore_errors then
      c.seq (up_sync_children o env lpath rpath rest)
    else { c with status := false }

end

/-- Attributes of a remote file node used by `dl_sync_file`: its size, the
two timestamps, and whether it carries an extended-attribute blob
(`node->xattrs`). -/
structure RFileAttrs where
  size : Int
  timestamp : Int
  local_ts : Int
  hasXattrs : Bool
deriving DecidableEq, Repr

/-- Remote tree node as walked by `dl_sync_dir` through
`mega_session_get_node_chilren`: a file node with attributes, or a
container node with children (any non-file node is recursed into as a
directory, `src/unnamed/part_000` lines 576-583). -/
inductive RNode where
  | file (name : String) (attrs : RFileAttrs)
  | dir (name : String) (children : List RNode)

/-- Name of a remote tree node. -/
def RNode.name : RNode → String
  | .file n _ => n
  | .dir n _ => n

/-- Name and file type of one local directory entry, as produced by the
local enumeration in the `--delete` handling of `dl_sync_dir`. -/
structure LocalChild where
  name : String
  ftype : FType
deriving DecidableEq, Repr

/-- Timestamp used for a download: the node's local-origin timestamp when
positive, otherwise its upload timestamp (`src/unnamed/part_000`
line 344). -/
def attrs_sync_ts (a : RFileAttrs) : Int :=
  if a.local_ts > 0 then a.local_ts else a.timestamp

/-- Environment of the download direction: answers of the external calls on
local paths.  `fileExists` answers `g_file_query_exists`, `ftype` answers
`g_file_query_file_type`, `lstat` answers `g_stat`, `deleteOk` gives the
success of `g_file_delete` / `delete_recursively`, `mkdirOk` of
`g_file_make_directory`, `getOk` of `mega_session_get_compat`, `utimeOk` of
`utime`, `xattrOk` of the `setxattr` loop (true also when the node has no
extended attributes to set), `enumOk` of enumerating a local directory, and
`lsLocal` lists the local directory entries. -/
structure DlEnv where
  fileExists : String → Bool
  ftype : String → FType
  lstat : String → Option StatBuf
  deleteOk : String → Bool
  mkdirOk : String → Bool
  getOk : String → Bool
  utimeOk : String → Bool
  xattrOk : String → Bool
  enumOk : String → Bool
  lsLocal : String → List LocalChild

/-- Final part of `dl_sync_file` (`src/unnamed/part_000` lines 412-477):
print `F remote_path`, and unless `--dryrun` download the file
(`mega_session_get_compat`; failure counts a file error and returns
`FALSE`), add the node size to `bytes_transferred`, call `utime` with the
sync timestamp when it is positive, and run the `setxattr` loop when the
node has extended attributes (a fatal `setxattr` failure returns `FALSE`
without counting a file error, line 459). -/
def dl_get_part (o : SyncOpts) (env : DlEnv) (attrs : RFileAttrs)
    (lpath rpath : String) : Outcome :=
  if o.opt_dryrun then { Outcome.empty with msgs := [Msg.F rpath] }
  else if env.getOk lpath = false then
    { Outcome.empty with
      status := false, msgs := [Msg.F rpath],
      actions := [Action.getFile lpath false], filesWithErrors := 1 }
  else
    let ts := attrs_sync_ts attrs
    let tact : List Action :=
      if 0 < ts then [Action.setTimes lpath ts (env.utimeOk lpath)] else []
    if attrs.hasXattrs then
      if env.xattrOk lpath then
        { Outcome.empty with
          msgs := [Msg.F rpath],
          actions := [Action.getFile lpath true] ++ tact ++
            [Action.setXattrs lpath true],
          bytesTransferred := attrs.size }
      else
        { Outcome.empty with
          status := false, msgs := [Msg.F rpath],
          actions := [Action.getFile lpath true] ++ tact ++
            [Action.setXattrs lpath false],
          bytesTransferred := attrs.size }
    else
      { Outcome.empty with
        msgs := [Msg.F rpath],
        actions := [Action.getFile lpath true] ++ tact,
        bytesTransferred := attrs.size }

/-- Embedding of `dl_sync_file` (`src/unnamed/part_000` lines 336-478):
when the local target exists, a directory without `--force` or a special
file is a counted error; a stat failure is a counted error; a local file
identical in size and timestamp is skipped unless `--always`; a differing
local target is announced with `R` and deleted (recursively for a
directory) unless `--dryrun`; then the file is downloaded via
`dl_get_part`. -/
def dl_sync_file (o : SyncOpts) (env : DlEnv) (attrs : RFileAttrs)
    (lpath rpath : String) : Outcome :=
  let base := { Outcome.empty with filesProcessed := 1 }
  if env.fileExists lpath then
    let ft := env.ftype lpath
    if o.opt_force = false ∧ ft = FType.directory then
      { base with status := false, filesWithErrors := 1 }
    else if ft ≠ FType.directory ∧ ft ≠ FType.regular then
      { base with status := false, filesWithErrors := 1 }
    else
      match env.lstat lpath with
      | none => { base with status := false, filesWithErrors := 1 }
      | some st =>
        if o.opt_always = true ∨ attrs.size ≠ st.st_size ∨
            st.st_mtime ≠ attrs_sync_ts attrs then
          let rep : Outcome :=
            if o.opt_dryrun then { Outcome.empty with msgs := [Msg.R lpath] }
            else if env.deleteOk lpath then
              { Outcome.empty with
                msgs := [Msg.R lpath],
                actions := [Action.rmLocal lpath (ft = FType.directory) true] }
            else
              { Outcome.empty with
                status := false, msgs := [Msg.R lpath],
                actions := [Action.rmLocal lpath (ft = FType.directory) false],
                filesWithErrors := 1 }
          if rep.status then
            base.seq (rep.seq (dl_get_part o env attrs lpath rpath))
          else base.seq rep
        else base
  else base.seq (dl_get_part o env attrs lpath rpath)

/-- Prologue of `dl_sync_dir` (`src/unnamed/part_000` lines 491-525):
unless `--delete-only`, an existing local regular file is announced with
`R` and deleted (unless `--dryrun`), an existing non-directory non-regular
target fails, and a missing target is announced with `D remote_path` and
created with `g_file_make_directory` (unless `--dryrun`). -/
def dl_dir_prologue (o : SyncOpts) (env : DlEnv) (lpath rpath : String) :
    Outcome :=
  let ft := env.ftype lpath
  let part1 : Outcome :=
    if o.opt_delete_only = false ∧ ft ≠ FType.unknown then
      if ft = FType.regular then
        if o.opt_dryrun then { Outcome.empty with msgs := [Msg.R lpath] }
        else if env.deleteOk lpath then
          { Outcome.empty with
            msgs := [Msg.R lpath],
            actions := [Action.rmLocal lpath false true] }
        else
          { Outcome.empty with
            status := false, msgs := [Msg.R lpath],
            actions := [Action.rmLocal lpath false false] }
      else if ft ≠ FType.directory then Outcome.fail
      else Outcome.empty
    else Outcome.empty
  if part1.status = false then part1
  else
    let part2 : Outcome :=
      if o.opt_delete_only = false ∧ env.fileExists lpath = false then
        if o.opt_dryrun then { Outcome.empty with msgs := [Msg.D rpath] }
        else if env.mkdirOk lpath then
          { Outcome.empty with
            msgs := [Msg.D rpath], actions := [Action.mkdirLocal lpath true] }
        else
          { Outcome.empty with
            status := false, msgs := [Msg.D rpath],
            actions := [Action.mkdirLocal lpath false] }
      else Outcome.empty
    part1.seq part2

/-- Loop of `dl_sync_dir` over the local leftovers under `--delete`
(`src/unnamed/part_000` lines 591-634): each leftover is announced with
`R`; unless `--dryrun`, directories are deleted recursively and regular
files with `g_file_delete` (counting `elements_deleted` on success; a
failure sets the status to `opt_ignore_errors`), and special files only get
a warning.  The loop breaks when the status became `FALSE`. -/
def dl_delete_loop (o : SyncOpts) (env : DlEnv) (lpath : String) :
    List LocalChild → Outcome
  | [] => Outcome.empty
  | lc :: rest =>
    let p := lpath ++ "/" ++ lc.name
    let head : Outcome :=
      if o.opt_dryrun then { Outcome.empty with msgs := [Msg.R p] }
      else
        match lc.ftype with
        | FType.directory =>
          if env.deleteOk p then
            { Outcome.empty with
              msgs := [Msg.R p], actions := [Action.rmLocal p true true],
              elementsDeleted := 1 }
          else
            { Outcome.empty with
              status := o.opt_ignore_errors, msgs := [Msg.R p],
              actions := [Action.rmLocal p true false] }
        | FType.regular =>
          if env.deleteOk p then
            { Outcome.empty with
              msgs := [Msg.R p], actions := [Action.rmLocal p false true],
              elementsDeleted := 1 }
          else
            { Outcome.empty with
              status := o.opt_ignore_errors, msgs := [Msg.R p],
              actions := [Action.rmLocal p false false] }
        | _ => { Outcome.empty with msgs := [Msg.R p, Msg.W p] }
    if head.status then head.seq (dl_delete_loop o env lpath rest) else head

mutual

/-- Dispatch on one remote tree node, as done by the child loop of
`dl_sync_dir` (`src/unnamed/part_000` lines 562-587): a file node goes
through `dl_sync_file` unless `--delete-only`, any other node recurses into
the body of `dl_sync_dir` (lines 480-643), modelled by the `.dir` branch
below.  `lpath` / `rpath` are the node's own local and remote paths. -/
def dl_sync_entry (o : SyncOpts) (env : DlEnv) (lpath rpath : String) :
    RNode → Outcome
  | .file _ attrs =>
    if o.opt_delete_only then Outcome.empty
    else dl_sync_file o env attrs lpath rpath
  | .dir _ children =>
    let base := { Outcome.empty with foldersProcessed := 1 }
    let pro := dl_dir_prologue o env lpath rpath
    if pro.status = false then base.seq pro
    else
      let checkDelete := o.opt_delete = true ∧ env.fileExists lpath = true
      if checkDelete ∧ env.enumOk lpath = false then
        (base.seq pro).seq Outcome.fail
      else
        let kids := dl_sync_children o env lpath rpath children
        let pre := (base.seq pro).seq kids
        if checkDelete ∧ kids.status = true then
          pre.seq (dl_delete_loop o env lpath ((env.lsLocal lpath).filter
            (fun lc => !(children.map RNode.name).contains lc.name)))
        else pre

/-- Child loop of `dl_sync_dir` (`src/unnamed/part_000` lines 561-587):
process the remote children in order; when one fails the loop status
becomes `opt_ignore_errors` and the loop breaks if that made it
`FALSE`. -/
def dl_sync_children (o : SyncOpts) (env : DlEnv) (lpath rpath : String) :
    List RNode → Outcome
  | [] => Outcome.empty
  | c :: rest =>
    let r := dl_sync_entry o env (lpath ++ "/" ++ c.name)
      (rpath ++ "/" ++ c.name) c
    if r.status || o.opt_ignore_errors then
      r.seq (dl_sync_children o env lpath rpath rest)
    else { r with status := false }

end

/-- End-of-run summary printed by `sync_main` (`src/unnamed/part_000`
lines 712-718): the number of files processed, folders processed and files
with errors. -/
structure SyncReport where
  files : Nat
  folders : Nat
  errors : Nat
deriving DecidableEq, Repr

/-- Summary that `sync_main` reports for a finished run. -/
def sync_report (out : Outcome) : SyncReport :=
  { files := out.filesProcessed, folders := out.foldersProcessed,
    errors := out.filesWithErrors }

/-- Update period of the progress line (`src/lib/tools.c` line 221):
one second of monotonic time, in microseconds. -/
def PROGRESS_FREQUENCY : Int := 1000000

/-- Static state of `tool_show_progress` (`src/lib/tools.c` lines 225-227):
`last_update` (time of the last printed line, initially 0), `last_bytes`
(bytes reported by the last printed line, initially 0) and `transfer_start`
(time of the matching start sentinel, initially −1).  Times are
`g_get_monotonic_time` values in microseconds. -/
structure ProgressState where
  last_update : Int
  last_bytes : Int
  transfer_start : Int
deriving DecidableEq, Repr

/-- Line printed by one call of `tool_show_progress`: nothing, the
"just started" line (always 0 %), a regular update (percentage and current
rate), or the final summary (100 % and average rate).  The `gdouble` rate
and percentage computations are modelled over `ℚ`. -/
inductive ProgressOut where
  | silent
  | started (percentage : ℚ)
  | updated (percentage rate : ℚ)
  | final (percentage rate : ℚ)
deriving DecidableEq, Repr

/-- Embedding of `tool_show_progress` (`src/lib/tools.c` lines 223-314) as
a step of a state machine over the three static variables, fed with the
event's `timenow` (`g_get_monotonic_time`), `progress.done` and
`progress.total`.  A zero `total` returns silently; `done = −1` resets the
tracking state (and, since the time span to the fresh `last_update` is 0,
prints the "just started" line); an event before any start sentinel
(`transfer_start < 0`) is ignored; `done = −2` prints the final summary with
rate `total·10⁶ / (timenow − transfer_start)` and forgets the start;
a regular event less than `PROGRESS_FREQUENCY` after the last printed line
(when `last_update` is nonzero) is dropped; otherwise the regular line is
printed and the state advanced. -/
def tool_show_progress (st : ProgressState) (timenow done total : Int) :
    ProgressState × ProgressOut :=
  if total = 0 then (st, ProgressOut.silent)
  else if done = -1 then
    (⟨timenow, 0, timenow⟩, ProgressOut.started 0)
  else if st.transfer_start < 0 then (st, ProgressOut.silent)
  else if done = -2 then
    (⟨timenow, total, -1⟩,
     ProgressOut.final 100
       (((total : ℚ) * 1000000) / ((timenow - st.transfer_start : Int) : ℚ)))
  else if st.last_update ≠ 0 ∧ timenow < st.last_update + PROGRESS_FREQUENCY
  then (st, ProgressOut.silent)
  else if timenow - st.last_update = 0 then
    (⟨timenow, done, st.transfer_start⟩, ProgressOut.started 0)
  else
    (⟨timenow, done, st.transfer_start⟩,
     ProgressOut.updated ((done : ℚ) / (total : ℚ) * 100)
       (((done - st.last_bytes : Int) : ℚ) * 1000000 /
         ((timenow - st.last_update : Int) : ℚ)))

/-- Run of `tool_show_progress` over a list of `(timenow, done, total)`
events, returning the final state. -/
def tool_show_progress_run (st : ProgressState)
    (events : List (Int × Int × Int)) : ProgressState :=
  events.foldl (fun s e => (tool_show_progress s e.1 e.2.1 e.2.2).1) st

/-- Default number of transfer workers
(`static gint transfer_worker_count = 5`, `src/lib/tools.c` line 58). -/
def default_transfer_worker_count : Int := 5

/-- GLib's `CLAMP(x, low, high)`. -/
def CLAMP (x low high : Int) : Int := max low (min x high)

/-- Worker count established by `tool_init` (`src/lib/tools.c`
lines 497-513): the configured `Network.ParallelTransfers` value when
present (an unparsable value is read as 0 by `g_key_file_get_integer`),
clamped into `[1, 16]` when out of range, and the default 5 when the key is
absent. -/
def tool_init_workers : Option Int → Int
  | none => default_transfer_worker_count
  | some v => if v < 1 ∨ v > 16 then CLAMP v 1 16 else v

/-- Whether `tool_init` prints the "Invalid number of parallel transfers"
clamping warning (`src/lib/tools.c` lines 507-512). -/
def tool_init_workers_warns : Option Int → Bool
  | none => false
  | some v => decide (v < 1 ∨ v > 16)

/-- Worker count that `tool_start_session` hands to
`mega_session_set_workers` (`src/lib/tools.c` line 592): the value
`tool_init` left in `transfer_worker_count`. -/
def tool_start_session_workers (cfg : Option Int) : Int :=
  tool_init_workers cfg

/-- Options with `--always`, `--force`, `--dryrun`, `--delete` and
`--ignore-errors` set, used for exercising the dry-run frame. -/
def c10_opts : SyncOpts := ⟨true, true, true, true, false, true⟩

/-- Upload environment with existing local files and an existing differing
remote file counterpart, plus one remote leftover child. -/
def c10_uenv : UpEnv :=
  ⟨fun _ => some ⟨3, 4⟩, fun _ => some ⟨NType.file, 1, 2, 0⟩, fun _ => true,
    fun _ => true, fun _ => true, fun _ => true, fun _ => [⟨"x", "R/x"⟩]⟩

/-- Download environment with an existing differing local regular file,
plus one local leftover child. -/
def c10_denv : DlEnv :=
  ⟨fun _ => true, fun _ => FType.regular, fun _ => some ⟨3, 4⟩,
    fun _ => true, fun _ => true, fun _ => true, fun _ => true,
    fun _ => true, fun _ => true, fun _ => [⟨"y", FType.regular⟩]⟩

/-- Small local tree with a regular file and a special file. -/
def c10_lentry : LEntry := LEntry.dir "d" [LEntry.file "a", LEntry.special "s"]

/-- Small remote tree with one file node carrying extended attributes. -/
def c10_rnode : RNode := RNode.dir "d" [RNode.file "a" ⟨1, 2, 3, true⟩]

/-- Options with everything unset (in particular `--ignore-errors` off). -/
def c4x_opts : SyncOpts := ⟨false, false, false, false, false, false⟩

/-- Options with only `--ignore-errors` set. -/
def c4w_opts : SyncOpts := ⟨false, false, false, false, false, true⟩

/-- Upload environment where the local stat of `L/a` fails while every
other local file stats fine, and no remote counterpart exists. -/
def c4x_env : UpEnv :=
  ⟨fun p => if p = "L/a" then none else some ⟨1, 1⟩, fun _ => none,
    fun _ => true, fun _ => true, fun _ => true, fun _ => true, fun _ => []⟩

/-- Download environment where the local target does not exist and the
download, `utime` and `setxattr` calls all succeed. -/
def c8_env : DlEnv :=
  ⟨fun _ => false, fun _ => FType.unknown, fun _ => none, fun _ => true,
    fun _ => true, fun _ => true, fun _ => true, fun _ => true,
    fun _ => true, fun _ => []⟩

/-- Attributes of a remote file with a positive local-origin timestamp. -/
def c8_attrs : RFileAttrs := ⟨3, 7, 11, false⟩

/-- Options with only `--always` set, used for checking the
always-overwrite behaviour of `up_sync_file`. -/
def c1_opts : SyncOpts := ⟨true, false, false, false, false, false⟩

/-- Upload environment with an empty (0-byte) local file whose remote
counterpart is a file node of identical size and timestamp. -/
def c1x_env : UpEnv :=
  ⟨fun _ => some ⟨0, 7⟩, fun _ => some ⟨NType.file, 0, 7, 0⟩, fun _ => true,
    fun _ => true, fun _ => true, fun _ => true, fun _ => []⟩

/-- Upload environment with a 4-byte local file whose remote counterpart is
a file node of identical size and timestamp. -/
def c1_env : UpEnv :=
  ⟨fun _ => some ⟨4, 7⟩, fun _ => some ⟨NType.file, 4, 7, 0⟩, fun _ => true,
    fun _ => true, fun _ => true, fun _ => true, fun _ => []⟩

/-- Options with everything unset, used for the remove-then-put check. -/
def c9_opts : SyncOpts := ⟨false, false, false, false, false, false⟩

/-- Upload environment with a 5-byte local file whose remote counterpart
differs in timestamp, where `mega_session_rm` succeeds and
`mega_session_put_compat` fails. -/
def c9_env : UpEnv :=
  ⟨fun _ => some ⟨5, 7⟩, fun _ => some ⟨NType.file, 5, 9, 0⟩, fun _ => true,
    fun _ => true, fun _ => false, fun _ => true, fun _ => []⟩

/-- C2: an upload sync of a local file whose size is at most 0 bytes is a
no-op — no remote call is made, no message is printed, the function returns
`TRUE`, and `files_with_errors` is not incremented (only the
`files_processed` counter moves). -/
theorem C2_upload_empty_file_noop (o : SyncOpts) (env : UpEnv)
    (lpath rpath : String) (st : StatBuf) (hstat : env.lstat lpath = some st)
    (hsz : st.st_size ≤ 0) :
    up_sync_file o env lpath rpath =
      { Outcome.empty with filesProcessed := 1 } := by
  simp [up_sync_file, hstat, hsz]

/-- Witness for C2 at a concrete 0-byte file. -/
theorem C2_upload_empty_file_noop_witness :
    up_sync_file ⟨false, false, false, false, false, false⟩
      ⟨fun _ => some ⟨0, 5⟩, fun _ => none, fun _ => true, fun _ => true,
        fun _ => true, fun _ => true, fun _ => []⟩ "a" "r" =
      { Outcome.empty with filesProcessed := 1 } :=
  C2_upload_empty_file_noop _ _ "a" "r" ⟨0, 5⟩ rfl (by norm_num)

/-- C3: a download sync onto an existing local directory without `--force`
fails for that file only: it returns `FALSE`, increments
`files_with_errors` by one, and performs no deletion and no download (the
action trace is empty). -/
theorem C3_download_dir_conflict (o : SyncOpts) (env : DlEnv)
    (attrs : RFileAttrs) (lpath rpath : String)
    (hex : env.fileExists lpath = true)
    (hft : env.ftype lpath = FType.directory)
    (hforce : o.opt_force = false) :
    dl_sync_file o env attrs lpath rpath =
      { Outcome.empty with
        status := false, filesProcessed := 1, filesWithErrors := 1 } := by
  simp [dl_sync_file, hex, hft, hforce]

/-- Witness for C3 at a concrete directory target. -/
theorem C3_download_dir_conflict_witness :
    dl_sync_file ⟨false, false, false, false, false, false⟩
      ⟨fun _ => true, fun _ => FType.directory, fun _ => some ⟨1, 1⟩,
        fun _ => true, fun _ => true, fun _ => true, fun _ => true,
        fun _ => true, fun _ => true, fun _ => []⟩ ⟨1, 1, 0, false⟩ "a" "r" =
      { Outcome.empty with
        status := false, filesProcessed := 1, filesWithErrors := 1 } :=
  C3_download_dir_conflict _ _ ⟨1, 1, 0, false⟩ "a" "r" rfl rfl rfl

/-- C6: a regular (non-sentinel) progress event arriving less than one
second (`PROGRESS_FREQUENCY` microseconds) after the last printed update
produces no output and leaves the state unchanged; and whenever a call does
print something, it records its own time as `last_update`, so `last_update`
is indeed the time of the last printed line. -/
theorem C6_progress_throttled (st : ProgressState)
    (timenow done total : Int) :
    (0 ≤ done → 0 < st.last_update →
      timenow < st.last_update + PROGRESS_FREQUENCY →
      tool_show_progress st timenow done total = (st, ProgressOut.silent)) ∧
    ((tool_show_progress st timenow done total).2 ≠ ProgressOut.silent →
      (tool_show_progress st timenow done total).1.last_update = timenow) := by
  constructor
  · intro hd hlu ht
    unfold PROGRESS_FREQUENCY at ht
    unfold tool_show_progress PROGRESS_FREQUENCY
    split_ifs with h1 h2 h3 h4 h5 <;> first | rfl | omega
  · intro hout
    unfold tool_show_progress at hout ⊢
    split_ifs at hout ⊢ <;> simp_all

/-- Witness for C6: a concrete event 10 µs after a printed update is
dropped. -/
theorem C6_progress_throttled_witness :
    tool_show_progress ⟨100, 7, 50⟩ 110 9 1000 =
      (⟨100, 7, 50⟩, ProgressOut.silent) :=
  (C6_progress_throttled ⟨100, 7, 50⟩ 110 9 1000).1 (by norm_num)
    (by norm_num) (by norm_num [PROGRESS_FREQUENCY])

/-- C7: for every configuration input the worker count handed to
`mega_session_set_workers` lies in `[1, 16]`; the default (no configured
value) is 5; and a configured value outside the range is clamped with a
warning. -/
theorem C7_workers_clamped :
    (∀ cfg : Option Int, 1 ≤ tool_start_session_workers cfg ∧
      tool_start_session_workers cfg ≤ 16) ∧
    tool_start_session_workers none = 5 ∧
    (∀ v : Int, v < 1 ∨ 16 < v →
      tool_start_session_workers (some v) = CLAMP v 1 16 ∧
      tool_init_workers_warns (some v) = true) := by
  refine ⟨?_, rfl, ?_⟩
  · intro cfg
    match cfg with
    | none => exact ⟨by norm_num [tool_start_session_workers,
        tool_init_workers, default_transfer_worker_count], by
        norm_num [tool_start_session_workers, tool_init_workers,
          default_transfer_worker_count]⟩
    | some v =>
      simp only [tool_start_session_workers, tool_init_workers]
      split_ifs with h
      · constructor
        · exact le_max_left 1 (min v 16)
        · exact max_le (by norm_num) (min_le_right v 16)
      · push_neg at h
        exact ⟨h.1, h.2⟩
  · intro v hv
    constructor
    · simp only [tool_start_session_workers, tool_init_workers]
      split_ifs with h
      · rfl
      · push_neg at h
        rcases hv with hv | hv
        · omega
        · omega
    · simp only [tool_init_workers_warns]
      rcases hv with hv | hv
      · simp [hv]
      · simp [hv]

/-- Witness for C7 at the concrete out-of-range configuration value 100. -/
theorem C7_workers_clamped_witness :
    tool_start_session_workers (some 100) = CLAMP 100 1 16 ∧
    tool_init_workers_warns (some 100) = true :=
  C7_workers_clamped.2.2 100 (Or.inr (by norm_num))

/-- Counterexample to C1 as stated: with `--always` set, a 0-byte local
file whose remote counterpart is a file of identical size and timestamp is
NOT transferred — `up_sync_file` makes no remote call and prints nothing,
because the empty-file check fires before the always-overwrite check. -/
theorem C1_upload_skip_identical_counterexample :
    c1_opts.opt_always = true ∧
    c1x_env.lstat "a" = some ⟨0, 7⟩ ∧
    c1x_env.stat "r" = some ⟨NType.file, 0, 7, 0⟩ ∧
    up_sync_file c1_opts c1x_env "a" "r" =
      { Outcome.empty with filesProcessed := 1 } :=
  ⟨rfl, rfl, rfl, rfl⟩

/-- C1 (amended): an upload sync of a local file whose remote counterpart
is a file of identical size and timestamp is skipped as a no-op (no remote
removal, no upload, no error) unless `--always` is set AND the local file
is non-empty, in which case the replacement is announced (`R` is the first
message) and, in a non-dry run whose removal succeeds, the upload is
performed; empty (size ≤ 0) local files are never transferred even with
`--always`. -/
theorem C1_upload_skip_identical_amended (o : SyncOpts) (env : UpEnv)
    (lpath rpath : String) (st : StatBuf) (n : MegaNode)
    (hstat : env.lstat lpath = some st) (hnode : env.stat rpath = some n)
    (hfile : n.ntype = NType.file) (hsize : n.size = st.st_size)
    (hts : st.st_mtime = node_sync_ts n) :
    (o.opt_always = false →
      up_sync_file o env lpath rpath =
        { Outcome.empty with filesProcessed := 1 }) ∧
    (o.opt_always = true → 0 < st.st_size →
      (up_sync_file o env lpath rpath).msgs.head? = some (Msg.R rpath) ∧
      (o.opt_dryrun = false → env.rmOk rpath = true →
        Action.putRemote rpath (env.putOk rpath) ∈
          (up_sync_file o env lpath rpath).actions)) := by
  constructor
  · intro ha
    by_cases hsz : st.st_size ≤ 0
    · simp [up_sync_file, hstat, hsz]
    · simp [up_sync_file, hstat, hsz, hnode, hfile, ha, hsize, hts]
  · intro ha hsz
    have hsz' : ¬ st.st_size ≤ 0 := by omega
    constructor
    · by_cases hd : o.opt_dryrun
      · simp [up_sync_file, up_put_part, Outcome.seq, Outcome.empty,
          hstat, hsz', hnode, hfile, ha, hd]
      · by_cases hrm : env.rmOk rpath
        · by_cases hp : env.putOk rpath <;>
            simp [up_sync_file, up_put_part, Outcome.seq, Outcome.empty,
              hstat, hsz', hnode, hfile, ha, hd, hrm, hp]
        · simp [up_sync_file, up_put_part, Outcome.seq, Outcome.empty,
            hstat, hsz', hnode, hfile, ha, hd, hrm]
    · intro hd hrm
      by_cases hp : env.putOk rpath <;>
        simp [up_sync_file, up_put_part, Outcome.seq, Outcome.empty,
          hstat, hsz', hnode, hfile, ha, hd, hrm, hp]

/-- Witness for the amended C1 at a concrete non-empty identical file with
`--always` set: the replacement is announced and the upload attempted. -/
theorem C1_upload_skip_identical_amended_witness :
    (up_sync_file c1_opts c1_env "a" "r").msgs.head? = some (Msg.R "r") ∧
    Action.putRemote "r" (c1_env.putOk "r") ∈
      (up_sync_file c1_opts c1_env "a" "r").actions := by
  have h := (C1_upload_skip_identical_amended c1_opts c1_env "a" "r"
    ⟨4, 7⟩ ⟨NType.file, 4, 7, 0⟩ rfl rfl rfl rfl rfl).2 rfl (by norm_num)
  exact ⟨h.1, h.2 rfl rfl⟩

/-- C9: when an upload sync decides to overwrite an existing, differing
remote file (in a non-dry run where the removal succeeds and the upload
then fails), the action trace is exactly `remove` followed by `put`: the
remote node is removed before the upload starts, so after the failed upload
the remote counterpart no longer exists, and the function returns `FALSE`
with one counted file error. -/
theorem C9_overwrite_is_remove_then_put (o : SyncOpts) (env : UpEnv)
    (lpath rpath : String) (st : StatBuf) (n : MegaNode)
    (hstat : env.lstat lpath = some st) (hsz : 0 < st.st_size)
    (hnode : env.stat rpath = some n)
    (hnf : o.opt_force = true ∨ n.ntype ≠ NType.folder)
    (hdiff : o.opt_always = true ∨ n.size ≠ st.st_size ∨
      st.st_mtime ≠ node_sync_ts n)
    (hdry : o.opt_dryrun = false) (hrm : env.rmOk rpath = true)
    (hput : env.putOk rpath = false) :
    up_sync_file o env lpath rpath =
      { Outcome.empty with
        status := false,
        actions := [Action.rmRemote rpath true, Action.putRemote rpath false],
        msgs := [Msg.R rpath, Msg.F lpath],
        filesProcessed := 1, filesWithErrors := 1 } := by
  have hsz' : ¬ st.st_size ≤ 0 := by omega
  have hff : ¬ (o.opt_force = false ∧ n.ntype = NType.folder) := by
    rcases hnf with h | h
    · simp [h]
    · simp [h]
  simp only [up_sync_file, hstat, hnode]
  rw [if_neg hsz', if_neg hff, if_pos hdiff]
  simp [hdry, hrm, hput, up_put_part, Outcome.seq, Outcome.empty]

/-- Witness for C9 at a concrete differing remote file. -/
theorem C9_overwrite_is_remove_then_put_witness :
    up_sync_file c9_opts c9_env "a" "r" =
      { Outcome.empty with
        status := false,
        actions := [Action.rmRemote "r" true, Action.putRemote "r" false],
        msgs := [Msg.R "r", Msg.F "a"],
        filesProcessed := 1, filesWithErrors := 1 } :=
  C9_overwrite_is_remove_then_put c9_opts c9_env "a" "r" ⟨5, 7⟩
    ⟨NType.file, 5, 9, 0⟩ rfl (by norm_num) rfl (Or.inr (by decide))
    (Or.inr (Or.inr (by decide))) rfl rfl rfl

/-- Helper for C8: within the download tail of `dl_sync_file`, a successful
download is followed by a `utime` call with the sync timestamp exactly when
that timestamp is positive. -/
theorem dl_get_part_setTimes (o : SyncOpts) (env : DlEnv)
    (attrs : RFileAttrs) (lpath rpath : String)
    (h : Action.getFile lpath true ∈
      (dl_get_part o env attrs lpath rpath).actions) :
    (0 < attrs_sync_ts attrs →
      Action.setTimes lpath (attrs_sync_ts attrs) (env.utimeOk lpath) ∈
        (dl_get_part o env attrs lpath rpath).actions) ∧
    (attrs_sync_ts attrs ≤ 0 → ∀ t ok,
      Action.setTimes lpath t ok ∉
        (dl_get_part o env attrs lpath rpath).actions) := by
  unfold dl_get_part at h ⊢
  by_cases hdry : o.opt_dryrun
  · simp [hdry, Outcome.empty] at h
  · by_cases hget : env.getOk lpath = false
    · simp [hdry, hget] at h
    · constructor
      · intro hts
        by_cases hx : attrs.hasXattrs <;> by_cases hxo : env.xattrOk lpath <;>
          simp [hdry, hget, hx, hxo, hts]
      · intro hts t ok
        have hts' : ¬ 0 < attrs_sync_ts attrs := by omega
        by_cases hx : attrs.hasXattrs <;> by_cases hxo : env.xattrOk lpath <;>
          simp [hdry, hget, hx, hxo, hts']

/-- Helper for C8: the action trace of `dl_sync_file` is a prefix of local
removals (never a `utime` or a download) either alone or followed by the
trace of the download tail `dl_get_part`. -/
theorem dl_sync_file_actions_shape (o : SyncOpts) (env : DlEnv)
    (attrs : RFileAttrs) (lpath rpath : String) :
    ∃ pre : List Action,
      (∀ t ok, Action.setTimes lpath t ok ∉ pre) ∧
      Action.getFile lpath true ∉ pre ∧
      ((dl_sync_file o env attrs lpath rpath).actions = pre ∨
        (dl_sync_file o env attrs lpath rpath).actions =
          pre ++ (dl_get_part o env attrs lpath rpath).actions) := by
  unfold dl_sync_file
  rcases hls : env.lstat lpath with _ | st <;>
    simp only [hls] <;>
    split_ifs <;>
    first
    | (refine ⟨[], ?_, ?_, Or.inl ?_⟩ <;>
        simp [Outcome.seq, Outcome.empty] <;> done)
    | (refine ⟨[], ?_, ?_, Or.inr ?_⟩ <;>
        simp [Outcome.seq, Outcome.empty] <;> done)
    | (refine
        ⟨[Action.rmLocal lpath (env.ftype lpath = FType.directory) true],
          ?_, ?_, Or.inr ?_⟩ <;>
        simp [Outcome.seq, Outcome.empty] <;> done)
    | (refine
        ⟨[Action.rmLocal lpath (env.ftype lpath = FType.directory) false],
          ?_, ?_, Or.inl ?_⟩ <;>
        simp [Outcome.seq, Outcome.empty] <;> done)
    | simp_all [Outcome.empty]

/-- C8: whenever `dl_sync_file` performs a successful download, it then
calls `utime` on the local file with the node's local-origin timestamp when
that is positive (falling back to the upload timestamp), and makes no
`utime` call at all when the resulting timestamp is not positive. -/
theorem C8_download_sets_times (o : SyncOpts) (env : DlEnv)
    (attrs : RFileAttrs) (lpath rpath : String)
    (h : Action.getFile lpath true ∈
      (dl_sync_file o env attrs lpath rpath).actions) :
    (0 < attrs_sync_ts attrs →
      Action.setTimes lpath (attrs_sync_ts attrs) (env.utimeOk lpath) ∈
        (dl_sync_file o env attrs lpath rpath).actions) ∧
    (attrs_sync_ts attrs ≤ 0 → ∀ t ok,
      Action.setTimes lpath t ok ∉
        (dl_sync_file o env attrs lpath rpath).actions) := by
  obtain ⟨pre, hpre1, hpre2, hcase⟩ :=
    dl_sync_file_actions_shape o env attrs lpath rpath
  rcases hcase with hc | hc
  · rw [hc] at h
    exact absurd h hpre2
  · rw [hc] at h ⊢
    have hgp : Action.getFile lpath true ∈
        (dl_get_part o env attrs lpath rpath).actions := by
      rcases List.mem_append.1 h with h' | h'
      · exact absurd h' hpre2
      · exact h'
    have hh := dl_get_part_setTimes o env attrs lpath rpath hgp
    constructor
    · intro hts
      exact List.mem_append.2 (Or.inr (hh.1 hts))
    · intro hts t ok hmem
      rcases List.mem_append.1 hmem with h' | h'
      · exact hpre1 t ok h'
      · exact hh.2 hts t ok h'

/-- Witness for C8 at a concrete successful download with a positive
local-origin timestamp. -/
theorem C8_download_sets_times_witness :
    Action.setTimes "a" (attrs_sync_ts c8_attrs) (c8_env.utimeOk "a") ∈
      (dl_sync_file c9_opts c8_env c8_attrs "a" "r").actions :=
  (C8_download_sets_times c9_opts c8_env c8_attrs "a" "r" (by decide)).1
    (by decide)

/-- Helper for C5: a regular (non-sentinel) event never changes the
recorded start time of the transfer. -/
theorem tool_show_progress_keeps_start (s : ProgressState)
    (t d tot : Int) (hd : 0 ≤ d) :
    ((tool_show_progress s t d tot).1).transfer_start = s.transfer_start := by
  unfold tool_show_progress
  split_ifs <;> first | rfl | omega

/-- Helper for C5: a run of regular (non-sentinel) events never changes the
recorded start time of the transfer. -/
theorem tool_show_progress_run_keeps_start (es : List (Int × Int × Int)) :
    ∀ s : ProgressState, (∀ e ∈ es, 0 ≤ e.2.1) →
    (tool_show_progress_run s es).transfer_start = s.transfer_start := by
  induction es with
  | nil => intro s _; rfl
  | cons e rest ih =>
    intro s h
    have h1 : tool_show_progress_run s (e :: rest) =
        tool_show_progress_run (tool_show_progress s e.1 e.2.1 e.2.2).1
          rest := rfl
    rw [h1, ih _ (fun x hx => h x (List.mem_cons_of_mem e hx))]
    exact tool_show_progress_keeps_start s e.1 e.2.1 e.2.2
      (h e (List.mem_cons_self e rest))

/-- C5: in an event sequence made of a start sentinel (`done = −1`), then
any regular events, then a final sentinel (`done = −2`), the start sentinel
resets the tracking state (start time and printed-update time to the event
time, byte counter to 0), and the final sentinel prints a summary whose
average rate equals `bytes_total` divided by the wall time elapsed (in
seconds) since the matching start sentinel. -/
theorem C5_progress_sentinels (st : ProgressState) (t0 t1 total : Int)
    (es : List (Int × Int × Int)) (htot : total ≠ 0) (ht0 : 0 ≤ t0)
    (hes : ∀ e ∈ es, 0 ≤ e.2.1) (h01 : t0 < t1) :
    (tool_show_progress st t0 (-1) total).1 = ⟨t0, 0, t0⟩ ∧
    (tool_show_progress
        (tool_show_progress_run (tool_show_progress st t0 (-1) total).1 es)
        t1 (-2) total).2 =
      ProgressOut.final 100
        ((total : ℚ) / (((t1 - t0 : Int) : ℚ) / 1000000)) := by
  have h1 : (tool_show_progress st t0 (-1) total).1 = ⟨t0, 0, t0⟩ := by
    unfold tool_show_progress
    rw [if_neg htot, if_pos rfl]
  refine ⟨h1, ?_⟩
  rw [h1]
  have hts : (tool_show_progress_run ⟨t0, 0, t0⟩ es).transfer_start = t0 :=
    tool_show_progress_run_keeps_start es ⟨t0, 0, t0⟩ hes
  unfold tool_show_progress
  rw [if_neg htot, if_neg (show ¬ (-2 : Int) = -1 by norm_num),
    if_neg (show ¬ (tool_show_progress_run ⟨t0, 0, t0⟩ es).transfer_start < 0
      by omega),
    if_pos rfl]
  simp only [hts]
  congr 1
  have hne : ((t1 - t0 : Int) : ℚ) ≠ 0 :=
    Int.cast_ne_zero.mpr (by omega)
  field_simp

/-- Witness for C5 at a concrete three-event transfer. -/
theorem C5_progress_sentinels_witness :
    (tool_show_progress ⟨5, 5, 3⟩ 0 (-1) 4).1 = ⟨0, 0, 0⟩ ∧
    (tool_show_progress
        (tool_show_progress_run (tool_show_progress ⟨5, 5, 3⟩ 0 (-1) 4).1
          [(1000000, 2, 4)]) 2000000 (-2) 4).2 =
      ProgressOut.final 100
        ((4 : ℚ) / (((2000000 - 0 : Int) : ℚ) / 1000000)) :=
  C5_progress_sentinels ⟨5, 5, 3⟩ 0 2000000 4 [(1000000, 2, 4)]
    (by norm_num) (by norm_num) (by decide) (by norm_num)

/-- Action traces concatenate under sequential composition. -/
theorem Outcome.seq_actions (a b : Outcome) :
    (a.seq b).actions = a.actions ++ b.actions := rfl

/-- Under `--dryrun` the upload tail makes no state-changing call. -/
theorem up_put_part_dryrun (o : SyncOpts) (env : UpEnv)
    (lpath rpath : String) (sz : Int) (h : o.opt_dryrun = true) :
    (up_put_part o env lpath rpath sz).actions = [] := by
  simp [up_put_part, h, Outcome.empty]

/-- Under `--dryrun` an upload file sync makes no state-changing call. -/
theorem up_sync_file_dryrun (o : SyncOpts) (env : UpEnv)
    (lpath rpath : String) (h : o.opt_dryrun = true) :
    (up_sync_file o env lpath rpath).actions = [] := by
  rcases hls : env.lstat lpath with _ | st <;>
    rcases hns : env.stat rpath with _ | n <;>
    simp only [up_sync_file, hls, hns] <;>
    (try split_ifs) <;>
    simp_all [up_put_part, Outcome.seq, Outcome.empty]

/-- Under `--dryrun` the directory prologue of the upload makes no
state-changing call. -/
theorem up_dir_prologue_dryrun (o : SyncOpts) (env : UpEnv) (b : Bool)
    (lpath rpath : String) (h : o.opt_dryrun = true) :
    (up_dir_prologue o env b lpath rpath).actions = [] := by
  rcases hns : env.stat rpath with _ | n <;>
    simp only [up_dir_prologue, hns] <;>
    (try split_ifs) <;>
    simp_all [Outcome.empty]

/-- Under `--dryrun` the remote leftover-deletion loop makes no
state-changing call. -/
theorem up_delete_loop_dryrun (o : SyncOpts) (env : UpEnv)
    (h : o.opt_dryrun = true) :
    ∀ l : List RChild, (up_delete_loop o env l).actions = [] := by
  intro l
  induction l with
  | nil => rfl
  | cons rc rest ih =>
    simp [up_delete_loop, h, Outcome.seq, Outcome.empty, ih]

mutual

/-- Under `--dryrun` processing one local tree entry makes no
state-changing call. -/
theorem up_sync_entry_dryrun (o : SyncOpts) (env : UpEnv) (b : Bool)
    (lpath rpath : String) (h : o.opt_dryrun = true) :
    ∀ e : LEntry, (up_sync_entry o env b lpath rpath e).actions = []
  | .file nm => by
    simp only [up_sync_entry]
    split_ifs
    · rfl
    · exact up_sync_file_dryrun o env lpath rpath h
  | .special nm => by simp [up_sync_entry, Outcome.empty]
  | .dir nm entries => by
    have hk := up_sync_children_dryrun o env lpath rpath h entries
    have hp := up_dir_prologue_dryrun o env b lpath rpath h
    have hd := up_delete_loop_dryrun o env h
    simp only [up_sync_entry]
    split_ifs <;>
      simp [Outcome.seq_actions, hp, hk, hd, Outcome.fail, Outcome.empty]

/-- Under `--dryrun` the child loop of the upload makes no state-changing
call. -/
theorem up_sync_children_dryrun (o : SyncOpts) (env : UpEnv)
    (lpath rpath : String) (h : o.opt_dryrun = true) :
    ∀ es : List LEntry, (up_sync_children o env lpath rpath es).actions = []
  | [] => rfl
  | e :: rest => by
    have h1 := up_sync_entry_dryrun o env false (lpath ++ "/" ++ e.name)
      (rpath ++ "/" ++ e.name) h e
    have h2 := up_sync_children_dryrun o env lpath rpath h rest
    simp only [up_sync_children]
    split_ifs <;> simp [Outcome.seq_actions, h1, h2]

end

/-- Under `--dryrun` the download tail makes no state-changing call. -/
theorem dl_get_part_dryrun (o : SyncOpts) (env : DlEnv) (attrs : RFileAttrs)
    (lpath rpath : String) (h : o.opt_dryrun = true) :
    (dl_get_part o env attrs lpath rpath).actions = [] := by
  simp [dl_get_part, h, Outcome.empty]

/-- Under `--dryrun` a download file sync makes no state-changing call. -/
theorem dl_sync_file_dryrun (o : SyncOpts) (env : DlEnv)
    (attrs : RFileAttrs) (lpath rpath : String) (h : o.opt_dryrun = true) :
    (dl_sync_file o env attrs lpath rpath).actions = [] := by
  have hg := dl_get_part_dryrun o env attrs lpath rpath h
  rcases hls : env.lstat lpath with _ | st <;>
    simp only [dl_sync_file, hls] <;>
    (try split_ifs) <;>
    simp_all [Outcome.seq, Outcome.empty]

/-- Under `--dryrun` the directory prologue of the download makes no
state-changing call. -/
theorem dl_dir_prologue_dryrun (o : SyncOpts) (env : DlEnv)
    (lpath rpath : String) (h : o.opt_dryrun = true) :
    (dl_dir_prologue o env lpath rpath).actions = [] := by
  simp only [dl_dir_prologue]
  split_ifs <;> simp_all [Outcome.seq, Outcome.empty, Outcome.fail]

/-- Under `--dryrun` the local leftover-deletion loop makes no
state-changing call. -/
theorem dl_delete_loop_dryrun (o : SyncOpts) (env : DlEnv) (lpath : String)
    (h : o.opt_dryrun = true) :
    ∀ l : List LocalChild, (dl_delete_loop o env lpath l).actions = [] := by
  intro l
  induction l with
  | nil => rfl
  | cons lc rest ih =>
    simp [dl_delete_loop, h, Outcome.seq, Outcome.empty, ih]

mutual

/-- Under `--dryrun` processing one remote tree node makes no
state-changing call. -/
theorem dl_sync_entry_dryrun (o : SyncOpts) (env : DlEnv)
    (lpath rpath : String) (h : o.opt_dryrun = true) :
    ∀ rn : RNode, (dl_sync_entry o env lpath rpath rn).actions = []
  | .file nm attrs => by
    simp only [dl_sync_entry]
    split_ifs
    · rfl
    · exact dl_sync_file_dryrun o env attrs lpath rpath h
  | .dir nm children => by
    have hk := dl_sync_children_dryrun o env lpath rpath h children
    have hp := dl_dir_prologue_dryrun o env lpath rpath h
    have hd := dl_delete_loop_dryrun o env lpath h
    simp only [dl_sync_entry]
    split_ifs <;>
      simp [Outcome.seq_actions, hp, hk, hd, Outcome.fail, Outcome.empty]

/-- Under `--dryrun` the child loop of the download makes no
state-changing call. -/
theorem dl_sync_children_dryrun (o : SyncOpts) (env : DlEnv)
    (lpath rpath : String) (h : o.opt_dryrun = true) :
    ∀ cs : List RNode, (dl_sync_children o env lpath rpath cs).actions = []
  | [] => rfl
  | c :: rest => by
    have h1 := dl_sync_entry_dryrun o env (lpath ++ "/" ++ c.name)
      (rpath ++ "/" ++ c.name) h c
    have h2 := dl_sync_children_dryrun o env lpath rpath h rest
    simp only [dl_sync_children]
    split_ifs <;> simp [Outcome.seq_actions, h1, h2]

end

/-- C10: with the dry-run option set, an entire sync run — upload or
download, over any tree and any environment — makes no state-changing call
at all: no remote node is removed, created or uploaded and no local file is
deleted, created, downloaded, retimed or re-attributed; only counters,
messages and the returned status are produced. -/
theorem C10_dryrun_no_mutation (o : SyncOpts) (uenv : UpEnv) (denv : DlEnv)
    (b : Bool) (l r l2 r2 : String) (e : LEntry) (rn : RNode)
    (h : o.opt_dryrun = true) :
    (up_sync_entry o uenv b l r e).actions = [] ∧
    (dl_sync_entry o denv l2 r2 rn).actions = [] :=
  ⟨up_sync_entry_dryrun o uenv b l r h e,
    dl_sync_entry_dryrun o denv l2 r2 h rn⟩

/-- Witness for C10 on concrete trees with every oracle answering. -/
theorem C10_dryrun_no_mutation_witness :
    (up_sync_entry c10_opts c10_uenv true "L" "R" c10_lentry).actions = [] ∧
    (dl_sync_entry c10_opts c10_denv "L" "R" c10_rnode).actions = [] :=
  C10_dryrun_no_mutation c10_opts c10_uenv c10_denv true "L" "R" "L" "R"
    c10_lentry c10_rnode rfl

/-- Helper for C4: `up_sync_file` counts every call in `files_processed`,
whatever happens afterwards. -/
theorem up_sync_file_filesProcessed (o : SyncOpts) (env : UpEnv)
    (lpath rpath : String) :
    (up_sync_file o env lpath rpath).filesProcessed = 1 := by
  rcases hls : env.lstat lpath with _ | st <;>
    rcases hns : env.stat rpath with _ | n <;>
    simp only [up_sync_file, up_put_part, hls, hns] <;>
    (try split_ifs) <;>
    simp_all [Outcome.seq, Outcome.empty]

/-- Helper for C4: at the root of the upload, `up_sync_dir` performs no
remote-directory prologue. -/
theorem up_dir_prologue_root (o : SyncOpts) (env : UpEnv)
    (lpath rpath : String) :
    up_dir_prologue o env true lpath rpath = Outcome.empty := by
  simp [up_dir_prologue]

/-- Helper for C4: with `--ignore-errors` set, the upload child loop over a
flat list of regular files runs `up_sync_file` on every file (the loop
never breaks), returns `TRUE`, and accumulates in `files_with_errors` the
sum of the per-file error counts. -/
theorem up_sync_children_all_files_run (o : SyncOpts) (env : UpEnv)
    (lpath rpath : String) (hig : o.opt_ignore_errors = true)
    (hdo : o.opt_delete_only = false) :
    ∀ names : List String,
      (up_sync_children o env lpath rpath (names.map LEntry.file)).filesProcessed =
        names.length ∧
      (up_sync_children o env lpath rpath (names.map LEntry.file)).status =
        true ∧
      (up_sync_children o env lpath rpath (names.map LEntry.file)).filesWithErrors =
        (names.map (fun nm =>
          (up_sync_file o env (lpath ++ "/" ++ nm) (rpath ++ "/" ++ nm)).filesWithErrors)).sum := by
  intro names
  induction names with
  | nil => exact ⟨rfl, rfl, rfl⟩
  | cons nm rest ih =>
    simp only [List.map_cons, up_sync_children, up_sync_entry, LEntry.name,
      hdo, hig, Bool.or_true, if_true, Bool.false_eq_true, if_false,
      List.map, List.sum_cons]
    simp [Outcome.seq, up_sync_file_filesProcessed, ih.1, ih.2.1, ih.2.2]
    omega

/-- Counterexample to C4 as stated: without `--ignore-errors`, a failing
file (here `L/a`, whose stat fails) aborts the batch — the second file
`L/b` is never processed (`files_processed` stays 1 instead of 2) and the
whole directory sync returns `FALSE`. -/
theorem C4_batch_error_counterexample :
    c4x_opts.opt_ignore_errors = false ∧
    (up_sync_entry c4x_opts c4x_env true "L" "R"
      (LEntry.dir "L" [LEntry.file "a", LEntry.file "b"])).filesProcessed =
      1 ∧
    (up_sync_entry c4x_opts c4x_env true "L" "R"
      (LEntry.dir "L" [LEntry.file "a", LEntry.file "b"])).status =
      false := by
  refine ⟨rfl, ?_, ?_⟩ <;>
    simp [up_sync_entry, up_sync_children, up_sync_file, up_dir_prologue,
      up_put_part, Outcome.seq, Outcome.empty, Outcome.fail, c4x_opts,
      c4x_env, LEntry.name]

/-- C4 (amended): with the `--ignore-errors` option set, an individual
file's non-fatal error does not abort the batch: over a directory of
regular files every per-file operation still runs, the run reports success,
and the end-of-run report aggregates the per-file error counts; without
`--ignore-errors` the batch stops at the first failing file. -/
theorem C4_batch_error_handling_amended (o : SyncOpts) (env : UpEnv)
    (lpath rpath dname : String) (names : List String)
    (hig : o.opt_ignore_errors = true) (hdo : o.opt_delete_only = false)
    (hdel : o.opt_delete = false) (henum : env.enumOk lpath = true) :
    (up_sync_entry o env true lpath rpath
        (LEntry.dir dname (names.map LEntry.file))).filesProcessed =
      names.length ∧
    (up_sync_entry o env true lpath rpath
        (LEntry.dir dname (names.map LEntry.file))).status = true ∧
    (sync_report (up_sync_entry o env true lpath rpath
        (LEntry.dir dname (names.map LEntry.file)))).errors =
      (names.map (fun nm =>
        (up_sync_file o env (lpath ++ "/" ++ nm) (rpath ++ "/" ++ nm)).filesWithErrors)).sum := by
  have hkids := up_sync_children_all_files_run o env lpath rpath hig hdo
    names
  simp only [up_sync_entry, up_dir_prologue_root, hdel, henum, sync_report]
  simp [Outcome.seq, Outcome.empty, hkids.1, hkids.2.1, hkids.2.2,
    sync_report]

/-- Witness for the amended C4: with `--ignore-errors`, both files of a
two-file directory are processed even though the first one fails. -/
theorem C4_batch_error_handling_amended_witness :
    (up_sync_entry c4w_opts c4x_env true "L" "R"
        (LEntry.dir "L" (["a", "b"].map LEntry.file))).filesProcessed =
      (["a", "b"] : List String).length ∧
    (up_sync_entry c4w_opts c4x_env true "L" "R"
        (LEntry.dir "L" (["a", "b"].map LEntry.file))).status = true ∧
    (sync_report (up_sync_entry c4w_opts c4x_env true "L" "R"
        (LEntry.dir "L" (["a", "b"].map LEntry.file)))).errors =
      ((["a", "b"] : List String).map (fun nm =>
        (up_sync_file c4w_opts c4x_env ("L" ++ "/" ++ nm)
          ("R" ++ "/" ++ nm)).filesWithErrors)).sum :=
  C4_batch_error_handling_amended c4w_opts c4x_env "L" "R" "L" ["a", "b"]
    rfl rfl rfl rfl

end Megatools
